import Mathlib

/-!
# Verification of the atlas-contracts AMM core

Shallow embedding of the atlas-swap / stable-pool token-swap program:
the instruction codec (`instruction.rs`), the persistent record layouts
(`state.rs`), the fee-policy constraints (`constraints.rs`) and the
request handlers (`processor.rs`).  Machine integers are modelled as
`Nat` with explicit `2^64` / `2^128` bounds where the source checks
overflow; byte buffers are `List Nat` with each entry a byte value;
fallible code returns `Except`.

The `curve` and `fees` modules of the repository are not part of the
sources given here; the definitions for them are modelled from the
specification and are marked as such in their doc comments.
-/

namespace Atlas

/-- Decidable equality on `Except`, used to settle concrete runs of the
embedded fallible functions by `decide`. -/
instance exceptDecEq {ε α : Type} [DecidableEq ε] [DecidableEq α] :
    DecidableEq (Except ε α) := fun
  | .ok a, .ok b =>
    if h : a = b then .isTrue (by rw [h])
    else .isFalse (by intro hc; cases hc; exact h rfl)
  | .ok _, .error _ => .isFalse (by intro h; cases h)
  | .error _, .ok _ => .isFalse (by intro h; cases h)
  | .error e, .error f =>
    if h : e = f then .isTrue (by rw [h])
    else .isFalse (by intro hc; cases hc; exact h rfl)

/-! ## Little-endian byte encoding helpers -/

/-- Encode a natural number into `k` little-endian bytes (each `< 256`),
the semantics of Rust `u64::to_le_bytes` when `k = 8`. -/
def toLe : Nat → Nat → List Nat
  | 0, _ => []
  | k + 1, n => (n % 256) :: toLe k (n / 256)

/-- Decode a little-endian byte list into a natural number, the
semantics of Rust `u64::from_le_bytes`. -/
def fromLe : List Nat → Nat
  | [] => 0
  | b :: bs => b + 256 * fromLe bs

/-! ## Error types

`ProgErr` stands for `solana_program::program_error::ProgramError`
values reachable from the codec (`SwapError::InvalidInstruction` is
converted into a `ProgramError` by the source, so it appears here as a
constructor).  A Rust panic (out-of-range slice split) is modelled by
the dedicated constructor `panicSliceOutOfRange` so that the claim
"never panics" becomes statable. -/

inductive ProgErr where
  | invalidInstruction
  | invalidAccountData
  | uninitedAccount
  | maxSeedLengthExceeded
  | panicSliceOutOfRange
  deriving DecidableEq, Repr

/-- Embeds `SwapError` constructors used by the embedded handlers
(`error.rs` enumerates them; the processor sources above show the exact
variants raised at each site). -/
inductive SwapError where
  | alreadyInUse
  | invalidInput
  | incorrectSwapAccount
  | incorrectPoolMint
  | incorrectFeeAccount
  | incorrectTokenProgramId
  | calculationFailure
  | exceededSlippage
  | zeroTradingTokens
  | conversionFailure
  | invalidFee
  | unsupportedCurveType
  | invalidCurve
  | invalidSigner
  | invalidProgramOwner
  deriving DecidableEq, Repr

/-- Embeds `to_u64` from `processor.rs`: narrowing a `u128` value back to
`u64`, failing with `ConversionFailure` when it does not fit. -/
def to_u64 (n : Nat) : Except SwapError Nat :=
  if n < 2 ^ 64 then .ok n else .error .conversionFailure

/-! ## Fees (fee-blob of 40 bytes)

Modelled from the spec: the `curve/fees.rs` module is not among the
given sources.  `FeeParams` is `trade_fee_numerator: u64,
trade_fee_denominator: u64` (spec §3) and its packed form occupies the
40-byte `fees` field of the GlobalConfig layout (spec §6); the two
scalars are little-endian at the front, the remainder is padding. -/

structure Fees where
  trade_fee_numerator : Nat
  trade_fee_denominator : Nat
  deriving DecidableEq, Repr

/-- Embeds `Fees::LEN`. -/
def feesLen : Nat := 40

/-- Modelled from the spec: `Fees::pack_into_slice` — two little-endian
`u64` scalars followed by zero padding up to 40 bytes. -/
def feesPack (f : Fees) : List Nat :=
  toLe 8 f.trade_fee_numerator ++ (toLe 8 f.trade_fee_denominator ++ List.replicate 24 0)

/-- Modelled from the spec: `Fees::unpack_from_slice` on a 40-byte
buffer — reads the two little-endian `u64` scalars. -/
def feesUnpackFromSlice (l : List Nat) : Fees :=
  { trade_fee_numerator := fromLe (l.take 8)
    trade_fee_denominator := fromLe ((l.drop 8).take 8) }

/-- A `Fees` value whose fields fit in `u64`, as Rust's types force. -/
def Fees.wf (f : Fees) : Prop :=
  f.trade_fee_numerator < 2 ^ 64 ∧ f.trade_fee_denominator < 2 ^ 64

instance (f : Fees) : Decidable f.wf := by unfold Fees.wf; infer_instance

/-! ## SwapCurve (33-byte curve blob)

Modelled from the spec: the `curve/base.rs` module is not among the
given sources.  `CurveSpec` is a tagged variant over constant-product
and constant-price strategies (spec §3); the packed form is a one-byte
strategy tag followed by a 32-byte parameter blob (spec §6 gives the
total width 33).  The constant-price strategy carries one fixed `u64`
parameter (its price); constant-product carries none. -/

inductive SwapCurve where
  | constantProduct
  | constantPrice (token_b_price : Nat)
  deriving DecidableEq, Repr

/-- Embeds `SwapCurve::LEN`. -/
def swapCurveLen : Nat := 33

/-- Modelled from the spec: `SwapCurve::pack_into_slice`. -/
def swapCurvePack : SwapCurve → List Nat
  | .constantProduct => 0 :: List.replicate 32 0
  | .constantPrice p => 1 :: (toLe 8 p ++ List.replicate 24 0)

/-- Modelled from the spec: `SwapCurve::unpack_from_slice` on a 33-byte
buffer; an unknown strategy tag is invalid account data. -/
def swapCurveUnpackFromSlice (l : List Nat) : Except ProgErr SwapCurve :=
  match l with
  | [] => .error .invalidAccountData
  | t :: rest =>
    if t = 0 then .ok .constantProduct
    else if t = 1 then .ok (.constantPrice (fromLe (rest.take 8)))
    else .error .invalidAccountData

/-- Embeds `Pack::unpack_unchecked` for `SwapCurve`: the buffer length must be
exactly `SwapCurve::LEN`. -/
def swapCurveUnpackUnchecked (l : List Nat) : Except ProgErr SwapCurve :=
  if l.length = swapCurveLen then swapCurveUnpackFromSlice l
  else .error .invalidAccountData

/-- A curve value whose scalar parameter fits in `u64`. -/
def SwapCurve.wf : SwapCurve → Prop
  | .constantProduct => True
  | .constantPrice p => p < 2 ^ 64

instance (c : SwapCurve) : Decidable c.wf := by
  cases c <;> unfold SwapCurve.wf <;> infer_instance

/-! ## Request codec (`atlas-swap/program/src/instruction.rs`)

`SwapInstruction` and its `pack`/`unpack`.  Addresses (`Pubkey`) are
32-byte lists.  The panicking `split_at(32)` calls in the tag-4 branch
of `unpack` are modelled by the `panicSliceOutOfRange` error. -/

/-- The tagged request union (`enum SwapInstruction`).  The source's
`Initialize` constructor is spelled `initPool` here. -/
inductive SwapInstruction where
  | initPool (swap_curve : SwapCurve)
  | swapIx (amount_in minimum_amount_out : Nat)
  | depositAllTokenTypes
      (pool_token_amount maximum_token_a_amount maximum_token_b_amount : Nat)
  | withdrawAllTokenTypes
      (pool_token_amount minimum_token_a_amount minimum_token_b_amount : Nat)
  | setGlobalState (owner fee_owner : List Nat)
      (initial_supply lp_decimals : Nat) (fees : Fees)
  deriving DecidableEq, Repr

/-- Embeds `SwapInstruction::unpack_u64`: read a little-endian `u64` from the
front of the buffer, failing with `InvalidInstruction` when fewer than
8 bytes remain. -/
def unpackU64 (input : List Nat) : Except ProgErr (Nat × List Nat) :=
  if 8 ≤ input.length then .ok (fromLe (input.take 8), input.drop 8)
  else .error .invalidInstruction

/-- Embeds `SwapInstruction::unpack`.  The tag-4 branch performs
`rest.split_at(32)` twice with no length guard; when the remaining
payload is shorter than 32 bytes Rust's `split_at` panics, modelled by
`panicSliceOutOfRange`. -/
def swapInstructionUnpack (input : List Nat) : Except ProgErr SwapInstruction :=
  match input with
  | [] => .error .invalidInstruction
  | tag :: rest =>
    if tag = 0 then
      match swapCurveUnpackUnchecked rest with
      | .error e => .error e
      | .ok swap_curve => .ok (.initPool swap_curve)
    else if tag = 1 then
      match unpackU64 rest with
      | .error e => .error e
      | .ok (amount_in, r1) =>
        match unpackU64 r1 with
        | .error e => .error e
        | .ok (minimum_amount_out, _) => .ok (.swapIx amount_in minimum_amount_out)
    else if tag = 2 then
      match unpackU64 rest with
      | .error e => .error e
      | .ok (pool_token_amount, r1) =>
        match unpackU64 r1 with
        | .error e => .error e
        | .ok (maximum_token_a_amount, r2) =>
          match unpackU64 r2 with
          | .error e => .error e
          | .ok (maximum_token_b_amount, _) =>
            .ok (.depositAllTokenTypes pool_token_amount
              maximum_token_a_amount maximum_token_b_amount)
    else if tag = 3 then
      match unpackU64 rest with
      | .error e => .error e
      | .ok (pool_token_amount, r1) =>
        match unpackU64 r1 with
        | .error e => .error e
        | .ok (minimum_token_a_amount, r2) =>
          match unpackU64 r2 with
          | .error e => .error e
          | .ok (minimum_token_b_amount, _) =>
            .ok (.withdrawAllTokenTypes pool_token_amount
              minimum_token_a_amount minimum_token_b_amount)
    else if tag = 4 then
      if rest.length < 32 then .error .panicSliceOutOfRange
      else
        let owner := rest.take 32
        let r1 := rest.drop 32
        if r1.length < 32 then .error .panicSliceOutOfRange
        else
          let fee_owner := r1.take 32
          let r2 := r1.drop 32
          match unpackU64 r2 with
          | .error e => .error e
          | .ok (initial_supply, r3) =>
            match r3 with
            | [] => .error .invalidInstruction
            | lp_decimals :: r4 =>
              if feesLen ≤ r4.length then
                .ok (.setGlobalState owner fee_owner initial_supply lp_decimals
                  (feesUnpackFromSlice (r4.take feesLen)))
              else .error .invalidInstruction
    else .error .invalidInstruction

/-- Embeds `SwapInstruction::pack`. -/
def swapInstructionPack : SwapInstruction → List Nat
  | .initPool c => 0 :: swapCurvePack c
  | .swapIx a m => 1 :: (toLe 8 a ++ toLe 8 m)
  | .depositAllTokenTypes p a b => 2 :: (toLe 8 p ++ (toLe 8 a ++ toLe 8 b))
  | .withdrawAllTokenTypes p a b => 3 :: (toLe 8 p ++ (toLe 8 a ++ toLe 8 b))
  | .setGlobalState o fo s d f =>
      4 :: (o ++ (fo ++ (toLe 8 s ++ ((d % 256) :: feesPack f))))

/-- Validity of a request value: exactly the constraints Rust's types
impose (u64 scalars, a u8, 32-byte addresses). -/
def SwapInstruction.wf : SwapInstruction → Prop
  | .initPool c => c.wf
  | .swapIx a m => a < 2 ^ 64 ∧ m < 2 ^ 64
  | .depositAllTokenTypes p a b => p < 2 ^ 64 ∧ a < 2 ^ 64 ∧ b < 2 ^ 64
  | .withdrawAllTokenTypes p a b => p < 2 ^ 64 ∧ a < 2 ^ 64 ∧ b < 2 ^ 64
  | .setGlobalState o fo s d f =>
      o.length = 32 ∧ fo.length = 32 ∧ s < 2 ^ 64 ∧ d < 256 ∧ f.wf

instance (r : SwapInstruction) : Decidable r.wf := by
  cases r <;> unfold SwapInstruction.wf <;> infer_instance

/-! ## Persistent records (`atlas-swap/program/src/state.rs`) -/

/-- Embeds `GlobalState` (the GlobalConfig singleton record, 114 bytes).  The
source field `is_initialized` is spelled `is_inited` here. -/
structure GlobalState where
  is_inited : Bool
  owner : List Nat
  fee_owner : List Nat
  initial_supply : Nat
  lp_decimals : Nat
  fees : Fees
  deriving DecidableEq, Repr

/-- Embeds `GlobalState::LEN`. -/
def globalStateLen : Nat := 114

/-- Embeds `GlobalState::pack_into_slice`: segments of widths
1, 32, 32, 8, 1, 40. -/
def globalStatePack (g : GlobalState) : List Nat :=
  (if g.is_inited then 1 else 0) ::
    (g.owner ++ (g.fee_owner ++ (toLe 8 g.initial_supply ++
      ((g.lp_decimals % 256) :: feesPack g.fees))))

/-- Embeds `GlobalState::unpack_from_slice`: rejects any buffer whose length is
not exactly 114 with `SwapError::InvalidInstruction`, and an
out-of-range boolean byte with `InvalidAccountData`. -/
def globalStateUnpackFromSlice (l : List Nat) : Except ProgErr GlobalState :=
  if l.length = globalStateLen then
    match l with
    | [] => .error .invalidInstruction
    | b :: rest =>
      let owner := rest.take 32
      let r1 := rest.drop 32
      let fee_owner := r1.take 32
      let r2 := r1.drop 32
      let initial_supply := fromLe (r2.take 8)
      let r3 := r2.drop 8
      let lp_decimals := r3.headD 0
      let feesBytes := r3.drop 1
      if b = 0 then
        .ok ⟨false, owner, fee_owner, initial_supply, lp_decimals,
          feesUnpackFromSlice feesBytes⟩
      else if b = 1 then
        .ok ⟨true, owner, fee_owner, initial_supply, lp_decimals,
          feesUnpackFromSlice feesBytes⟩
      else .error .invalidAccountData
  else .error .invalidInstruction

/-- Validity of a `GlobalState` value: the constraints Rust's field
types impose. -/
def GlobalState.wf (g : GlobalState) : Prop :=
  g.owner.length = 32 ∧ g.fee_owner.length = 32 ∧
    g.initial_supply < 2 ^ 64 ∧ g.lp_decimals < 256 ∧ g.fees.wf

instance (g : GlobalState) : Decidable g.wf := by
  unfold GlobalState.wf; infer_instance

/-- Embeds `SwapV1` (the per-pool record, 227 bytes). -/
structure SwapV1 where
  is_inited : Bool
  nonce : Nat
  token_program_id : List Nat
  token_a : List Nat
  token_b : List Nat
  pool_mint : List Nat
  token_a_mint : List Nat
  token_b_mint : List Nat
  swap_curve : SwapCurve
  deriving DecidableEq, Repr

/-- Embeds `SwapV1::LEN`. -/
def swapV1Len : Nat := 227

/-- Embeds `SwapV1::pack_into_slice`: segments of widths
1, 1, 32, 32, 32, 32, 32, 32, 33. -/
def swapV1Pack (s : SwapV1) : List Nat :=
  (if s.is_inited then 1 else 0) :: ((s.nonce % 256) ::
    (s.token_program_id ++ (s.token_a ++ (s.token_b ++ (s.pool_mint ++
      (s.token_a_mint ++ (s.token_b_mint ++ swapCurvePack s.swap_curve)))))))

/-- Embeds `SwapV1::unpack_from_slice`: rejects a buffer shorter than 227 bytes
with `MaxSeedLengthExceeded`, then reads the leading 227 bytes
(`array_ref![input, 0, 227]`); an out-of-range boolean byte is
`InvalidAccountData`, and the trailing 33 bytes go through
`SwapCurve::unpack_from_slice`. -/
def swapV1UnpackFromSlice (l : List Nat) : Except ProgErr SwapV1 :=
  if swapV1Len ≤ l.length then
    match l with
    | [] => .error .maxSeedLengthExceeded
    | b :: rest0 =>
      match rest0 with
      | [] => .error .maxSeedLengthExceeded
      | nonce :: rest =>
        let token_program_id := rest.take 32
        let r1 := rest.drop 32
        let token_a := r1.take 32
        let r2 := r1.drop 32
        let token_b := r2.take 32
        let r3 := r2.drop 32
        let pool_mint := r3.take 32
        let r4 := r3.drop 32
        let token_a_mint := r4.take 32
        let r5 := r4.drop 32
        let token_b_mint := r5.take 32
        let r6 := r5.drop 32
        match swapCurveUnpackFromSlice (r6.take 33) with
        | .error e => .error e
        | .ok swap_curve =>
          if b = 0 then
            .ok ⟨false, nonce, token_program_id, token_a, token_b, pool_mint,
              token_a_mint, token_b_mint, swap_curve⟩
          else if b = 1 then
            .ok ⟨true, nonce, token_program_id, token_a, token_b, pool_mint,
              token_a_mint, token_b_mint, swap_curve⟩
          else .error .invalidAccountData
  else .error .maxSeedLengthExceeded

/-- Validity of a `SwapV1` value: the constraints Rust's field types
impose. -/
def SwapV1.wf (s : SwapV1) : Prop :=
  s.nonce < 256 ∧ s.token_program_id.length = 32 ∧ s.token_a.length = 32 ∧
    s.token_b.length = 32 ∧ s.pool_mint.length = 32 ∧
    s.token_a_mint.length = 32 ∧ s.token_b_mint.length = 32 ∧ s.swap_curve.wf

instance (s : SwapV1) : Decidable s.wf := by
  unfold SwapV1.wf; infer_instance

/-- Embeds `Pack::unpack_unchecked` for `SwapV1`: buffer length must equal
`SwapV1::LEN` exactly. -/
def swapV1UnpackUnchecked (l : List Nat) : Except ProgErr SwapV1 :=
  if l.length = swapV1Len then swapV1UnpackFromSlice l
  else .error .invalidAccountData

/-- Embeds `Pack::unpack` for `SwapV1`: `unpack_unchecked` followed by the
initialization check (`UninitializedAccount` when the flag is clear). -/
def swapV1Unpack (l : List Nat) : Except ProgErr SwapV1 :=
  match swapV1UnpackUnchecked l with
  | .error e => .error e
  | .ok v => if v.is_inited then .ok v else .error .uninitedAccount

/-- Embeds `SwapVersion::unpack`: a leading version byte (only version 1 is
known; anything else is `UninitializedAccount`) followed by the
`SwapV1` body via `Pack::unpack`. -/
def swapVersionUnpack (input : List Nat) : Except ProgErr SwapV1 :=
  match input with
  | [] => .error .invalidAccountData
  | version :: rest =>
    if version = 1 then swapV1Unpack rest
    else .error .uninitedAccount

/-- Embeds `SwapVersion::is_initialized`: true exactly when `SwapVersion::unpack`
succeeds and the decoded record's flag is set; every decoding failure
yields `false`. -/
def swapVersionIsInited (input : List Nat) : Bool :=
  match swapVersionUnpack input with
  | .ok swap => swap.is_inited
  | .error _ => false

/-- The guard at the top of `Processor::process_initialize`
(`processor.rs` lines 388-390): a pool slot that reports itself
initialized is rejected with `AlreadyInUse`; otherwise processing
continues (modelled as success of the gate). -/
def processInitGate (input : List Nat) : Except SwapError Unit :=
  if swapVersionIsInited input then .error .alreadyInUse else .ok ()

/-! ## Fee policy (`stable-pool/token-swap/program/src/constraints.rs`) -/

/-- Embeds `CurveType`: the strategy selector carried by a `SwapCurve`. -/
inductive CurveType where
  | constantProduct
  | constantPrice
  deriving DecidableEq, Repr

/-- The `curve_type` field of a `SwapCurve`. -/
def SwapCurve.curveType : SwapCurve → CurveType
  | .constantProduct => .constantProduct
  | .constantPrice _ => .constantPrice

/-- Embeds `SwapConstraints`: valid curve types and the fee floor. -/
structure SwapConstraints where
  valid_curve_types : List CurveType
  fees : Fees

/-- Embeds `SwapConstraints::validate_curve`. -/
def validate_curve (sc : SwapConstraints) (swap_curve : SwapCurve) :
    Except SwapError Unit :=
  if swap_curve.curveType ∈ sc.valid_curve_types then .ok ()
  else .error .unsupportedCurveType

/-- Embeds `SwapConstraints::validate_fees`: numerator at least the floor's
numerator and denominator equal to the floor's denominator. -/
def validate_fees (sc : SwapConstraints) (fees : Fees) : Except SwapError Unit :=
  if sc.fees.trade_fee_numerator ≤ fees.trade_fee_numerator ∧
      fees.trade_fee_denominator = sc.fees.trade_fee_denominator then .ok ()
  else .error .invalidFee

/-- Embeds `MINIMUM_FEES`. -/
def MINIMUM_FEES : Fees := ⟨0, 10000⟩

/-- Embeds `VALID_CURVE_TYPES`. -/
def VALID_CURVE_TYPES : List CurveType := [.constantPrice, .constantProduct]

/-- Embeds `SWAP_CONSTRAINTS`. -/
def SWAP_CONSTRAINTS : SwapConstraints := ⟨VALID_CURVE_TYPES, MINIMUM_FEES⟩

/-- Embeds `MIN_LP_SUPPLY`. -/
def MIN_LP_SUPPLY : Nat := 100000

/-! ## Checked 128-bit arithmetic (`u128` semantics) -/

/-- Embeds `u128::checked_add`. -/
def checkedAdd128 (a b : Nat) : Option Nat :=
  if a + b < 2 ^ 128 then some (a + b) else none

/-- Embeds `u128::checked_mul`. -/
def checkedMul128 (a b : Nat) : Option Nat :=
  if a * b < 2 ^ 128 then some (a * b) else none

/-- Embeds `u128::checked_div`: `None` exactly on division by zero. -/
def checkedDiv (a b : Nat) : Option Nat :=
  if b = 0 then none else some (a / b)

/-- Embeds `u128::checked_sub`. -/
def checkedSub (a b : Nat) : Option Nat :=
  if b ≤ a then some (a - b) else none

/-! ## Proportional deposit (`processor.rs`) -/

/-- Embeds `Processor::calculate_stable_lp_amount`: the additive two-asset LP
share `(input_a + input_b) * supply / (reserve_a + reserve_b)` in
checked `u128` arithmetic. -/
def calculate_stable_lp_amount
    (total_supply token_a_amount token_b_amount
      input_a_amount input_b_amount : Nat) : Option Nat := do
  let total_amount ← checkedAdd128 token_a_amount token_b_amount
  let input_amount ← checkedAdd128 input_a_amount input_b_amount
  let prod ← checkedMul128 input_amount total_supply
  let pool_amount ← checkedDiv prod total_amount
  some pool_amount

/-- The value-movement core of
`Processor::process_deposit_all_token_types` after account validation:
computes the LP amount (mapping `None` to `ZeroTradingTokens`),
transfers both maximum input amounts into the reserves and mints the
narrowed LP amount.  Returns `(transferred_a, transferred_b, minted)`. -/
def processDepositCore
    (pool_supply token_a_amount token_b_amount
      maximum_token_a_amount maximum_token_b_amount : Nat) :
    Except SwapError (Nat × Nat × Nat) :=
  match calculate_stable_lp_amount pool_supply token_a_amount token_b_amount
      maximum_token_a_amount maximum_token_b_amount with
  | none => .error .zeroTradingTokens
  | some pool_amount =>
    match to_u64 pool_amount with
    | .error e => .error e
    | .ok minted =>
      .ok (maximum_token_a_amount, maximum_token_b_amount, minted)

/-! ## Proportional withdraw (`processor.rs`) -/

/-- Rounding direction for proportional share computation. -/
inductive RoundDirection where
  | floor
  | ceiling
  deriving DecidableEq, Repr

/-- Modelled from the spec: the curve engine's
`pool_tokens_to_trading_tokens` (`curve` module, not among the given
sources) — the proportional share `amount_x = pool_tokens * reserve_x /
pool_supply` in checked `u128` arithmetic, with the requested rounding;
`None` on overflow or a zero supply. -/
def poolTokensToTradingTokens
    (pool_tokens pool_token_supply reserve_a reserve_b : Nat)
    (rd : RoundDirection) : Option (Nat × Nat) := do
  let pa ← checkedMul128 pool_tokens reserve_a
  let pb ← checkedMul128 pool_tokens reserve_b
  match rd with
  | .floor => do
    let a ← checkedDiv pa pool_token_supply
    let b ← checkedDiv pb pool_token_supply
    some (a, b)
  | .ceiling => do
    let a ← checkedDiv (pa + pool_token_supply - 1) pool_token_supply
    let b ← checkedDiv (pb + pool_token_supply - 1) pool_token_supply
    some (a, b)

/-- The decision core of `Processor::process_withdraw_all_token_types`
after account validation: clamp the requested burn amount against
`supply - MIN_LP_SUPPLY` (failing with `CalculationFailure` when the
supply is already below the floor), compute the floor-rounded per-side
amounts, apply the slippage and zero-amount guards in source order, and
on success return `(burned, amount_a, amount_b)`. -/
def processWithdrawCore
    (pool_token_amount minimum_token_a_amount minimum_token_b_amount
      pool_mint_supply token_a_amount token_b_amount : Nat) :
    Except SwapError (Nat × Nat × Nat) :=
  match checkedSub pool_mint_supply MIN_LP_SUPPLY with
  | none => .error .calculationFailure
  | some max_pool_token_amount =>
    let pta := min pool_token_amount max_pool_token_amount
    match poolTokensToTradingTokens pta pool_mint_supply
        token_a_amount token_b_amount .floor with
    | none => .error .zeroTradingTokens
    | some (resA, resB) =>
      match to_u64 resA with
      | .error e => .error e
      | .ok a0 =>
        let aAmt := min token_a_amount a0
        if aAmt < minimum_token_a_amount then .error .exceededSlippage
        else if aAmt = 0 ∧ token_a_amount ≠ 0 then .error .zeroTradingTokens
        else
          match to_u64 resB with
          | .error e => .error e
          | .ok b0 =>
            let bAmt := min token_b_amount b0
            if bAmt < minimum_token_b_amount then .error .exceededSlippage
            else if bAmt = 0 ∧ token_b_amount ≠ 0 then .error .zeroTradingTokens
            else
              match to_u64 pta with
              | .error e => .error e
              | .ok burned => .ok (burned, aAmt, bAmt)

/-! ## Swap (`processor.rs`) -/

/-- Trade direction resolved from which pool reserve the caller names
as source. -/
inductive TradeDirection where
  | atob
  | btoa
  deriving DecidableEq, Repr

/-- The curve engine's swap output.  Only `dest_amount` is consumed by
the handler; `new_swap_amount` is the updated source-side reserve. -/
structure SwapResult where
  dest_amount : Nat
  new_swap_amount : Nat
  deriving DecidableEq, Repr

/-- A curve swap function: `(amount_in, input_reserve, output_reserve,
direction, fees) -> Option SwapResult`.  The handler is parametric in
it because the `curve` module is not among the given sources. -/
def CurveSwapFn : Type :=
  Nat → Nat → Nat → TradeDirection → Fees → Option SwapResult

/-- One external ledger transfer: `(source, destination, amount)`. -/
structure TransferOp where
  src : Nat
  dst : Nat
  amount : Nat
  deriving DecidableEq, Repr

/-- The pool-side bindings read from the `SwapV1` record and the global
state during `process_swap` (account addresses as abstract keys). -/
structure PoolBindings where
  tokenA : Nat
  tokenB : Nat
  poolMint : Nat
  tokenProgram : Nat
  feeOwner : Nat
  deriving DecidableEq, Repr

/-- The caller-supplied account keys of a Swap request, bound by
position. -/
structure SwapKeys where
  source : Nat
  swapSource : Nat
  swapDestination : Nat
  destination : Nat
  poolMint : Nat
  poolFee : Nat
  tokenProgram : Nat
  deriving DecidableEq, Repr

/-- The decision core of `Processor::process_swap` after the pool and
global records are loaded: the account-binding checks in source order,
the curve call, the slippage guard, and the two ledger transfers the
handler issues.  Note both transfers carry `to_u64(result.dest_amount)`
— including the transfer from the caller's source account into the
pool's source-side reserve. -/
def processSwapCore (curveSwap : CurveSwapFn) (pb : PoolBindings) (fees : Fees)
    (k : SwapKeys) (amount_in minimum_amount_out : Nat)
    (source_amount dest_amount : Nat) : Except SwapError (List TransferOp) :=
  if ¬(k.swapSource = pb.tokenA ∨ k.swapSource = pb.tokenB) then
    .error .incorrectSwapAccount
  else if ¬(k.swapDestination = pb.tokenA ∨ k.swapDestination = pb.tokenB) then
    .error .incorrectSwapAccount
  else if k.swapSource = k.swapDestination then .error .invalidInput
  else if k.swapSource = k.source then .error .invalidInput
  else if k.swapDestination = k.destination then .error .invalidInput
  else if k.poolMint ≠ pb.poolMint then .error .incorrectPoolMint
  else if k.poolFee ≠ pb.feeOwner then .error .incorrectFeeAccount
  else if k.tokenProgram ≠ pb.tokenProgram then .error .incorrectTokenProgramId
  else
    let trade_direction : TradeDirection :=
      if k.swapSource = pb.tokenA then .atob else .btoa
    match curveSwap amount_in source_amount dest_amount trade_direction fees with
    | none => .error .zeroTradingTokens
    | some result =>
      if result.dest_amount < minimum_amount_out then .error .exceededSlippage
      else
        match to_u64 result.dest_amount with
        | .error e => .error e
        | .ok amt =>
          .ok [⟨k.source, k.swapSource, amt⟩,
               ⟨k.swapDestination, k.destination, amt⟩]

/-- Modelled from the spec: the constant-product curve `swap` (§4.3 and
the §8 scenario) — gross output
`floor(amount_in * output_reserve / (input_reserve + amount_in))`,
minus the fee fraction `gross * num / den` of the configured fees;
`None` on a zero denominator or a zero resulting amount. -/
def constantProductSwap : CurveSwapFn := fun amount_in input_reserve
    output_reserve _dir fees =>
  if input_reserve + amount_in = 0 then none
  else if fees.trade_fee_denominator = 0 then none
  else
    let gross := amount_in * output_reserve / (input_reserve + amount_in)
    let fee := gross * fees.trade_fee_numerator / fees.trade_fee_denominator
    let dest := gross - fee
    if dest = 0 then none
    else some ⟨dest, input_reserve + amount_in⟩

/-! ## Configure / SetGlobalState (`processor.rs`) -/

/-- The stable-pool global configuration record as the processor uses
it (`GlobalState` of the stable-pool crate; its field set is exhibited
by the constructor expression in `process_set_global_state`).  Keys are
abstract `Nat` addresses. -/
structure GlobalStateSP where
  is_inited : Bool
  owner : Nat
  fee_owner : Nat
  initial_supply : Nat
  fees : Fees
  swap_curve : SwapCurve
  deriving DecidableEq, Repr

/-- Modelled from the spec: `Fees::validate` — the denominator of a fee
fraction must be nonzero (§4.4; the `curve/fees.rs` module is not among
the given sources). -/
def feesValidate (f : Fees) : Except SwapError Unit :=
  if f.trade_fee_denominator = 0 then .error .invalidFee else .ok ()

/-- Modelled from the spec: the calculator's `validate` — a
constant-price strategy with a zero price is an invalid curve; the
constant-product strategy is always valid. -/
def calcValidate : SwapCurve → Except SwapError Unit
  | .constantProduct => .ok ()
  | .constantPrice p => if p = 0 then .error .invalidCurve else .ok ()

/-- The decision core of `Processor::process_set_global_state` after
the PDA / system-program / rent checks: signer check, lazy bootstrap of
an uninitialized record from the built-in defaults (`defaults`
abstracts the `INITIAL_*` constants, which live outside the given
sources), the owner check against the (possibly bootstrapped) record,
curve and fee validation, and finally the overwrite of the record with
the requested values. -/
def processSetGlobalStateCore (defaults : GlobalStateSP)
    (stored : GlobalStateSP) (isSigner : Bool) (currentOwnerKey : Nat)
    (owner fee_owner : Nat) (initial_supply : Nat) (fees : Fees)
    (swap_curve : SwapCurve) : Except SwapError GlobalStateSP :=
  if ¬isSigner then .error .invalidSigner
  else
    let gs := if stored.is_inited = false then
        { is_inited := true, owner := defaults.owner,
          fee_owner := defaults.fee_owner,
          initial_supply := defaults.initial_supply,
          fees := defaults.fees, swap_curve := defaults.swap_curve }
      else stored
    if gs.owner ≠ currentOwnerKey then .error .invalidProgramOwner
    else
      match validate_curve SWAP_CONSTRAINTS swap_curve with
      | .error e => .error e
      | .ok _ =>
        match validate_fees SWAP_CONSTRAINTS fees with
        | .error e => .error e
        | .ok _ =>
          match feesValidate fees with
          | .error e => .error e
          | .ok _ =>
            match calcValidate swap_curve with
            | .error e => .error e
            | .ok _ =>
              .ok ⟨true, owner, fee_owner, initial_supply, fees, swap_curve⟩

/-- The record that ends up persisted: the handler packs the new record
only on success; on any failure the stored record is untouched. -/
def runSetGlobalState (defaults stored : GlobalStateSP) (isSigner : Bool)
    (currentOwnerKey : Nat) (owner fee_owner : Nat) (initial_supply : Nat)
    (fees : Fees) (swap_curve : SwapCurve) : GlobalStateSP :=
  match processSetGlobalStateCore defaults stored isSigner currentOwnerKey
      owner fee_owner initial_supply fees swap_curve with
  | .ok gs => gs
  | .error _ => stored

/-! ## Theorems -/

theorem toLe_length (k n : Nat) : (toLe k n).length = k := by
  induction k generalizing n with
  | zero => rfl
  | succ k ih => simp [toLe, ih]

theorem fromLe_toLe (k n : Nat) (h : n < 256 ^ k) : fromLe (toLe k n) = n := by
  induction k generalizing n with
  | zero => simp at h; simp [toLe, fromLe, h]
  | succ k ih =>
    have hdiv : n / 256 < 256 ^ k := by
      rw [Nat.div_lt_iff_lt_mul (by omega : 0 < 256)]
      rw [Nat.pow_succ] at h; omega
    simp [toLe, fromLe, ih (n / 256) hdiv]
    omega

theorem take_app (l₁ l₂ : List Nat) (n : Nat) (h : l₁.length = n) :
    (l₁ ++ l₂).take n = l₁ := by
  subst h; induction l₁ with
  | nil => rfl
  | cons a t ih => simp [ih]

theorem drop_app (l₁ l₂ : List Nat) (n : Nat) (h : l₁.length = n) :
    (l₁ ++ l₂).drop n = l₂ := by
  subst h; induction l₁ with
  | nil => rfl
  | cons a t ih => simp [ih]

theorem feesPack_length (f : Fees) : (feesPack f).length = 40 := by
  simp [feesPack, toLe_length]

theorem fees_roundtrip (f : Fees) (h : f.wf) :
    feesUnpackFromSlice (feesPack f) = f := by
  obtain ⟨h1, h2⟩ := h
  have e : (256 : Nat) ^ 8 = 2 ^ 64 := by norm_num
  simp [feesUnpackFromSlice, feesPack,
    take_app _ _ 8 (toLe_length 8 _), drop_app _ _ 8 (toLe_length 8 _),
    fromLe_toLe 8 _ (e ▸ h1), fromLe_toLe 8 _ (e ▸ h2)]

theorem swapCurvePack_length (c : SwapCurve) : (swapCurvePack c).length = 33 := by
  cases c <;> simp [swapCurvePack, toLe_length]

theorem swapCurve_roundtrip (c : SwapCurve) (h : c.wf) :
    swapCurveUnpackFromSlice (swapCurvePack c) = .ok c := by
  have e : (256 : Nat) ^ 8 = 2 ^ 64 := by norm_num
  cases c with
  | constantProduct => rfl
  | constantPrice p =>
    unfold SwapCurve.wf at h
    simp [swapCurveUnpackFromSlice, swapCurvePack,
      take_app _ _ 8 (toLe_length 8 _), fromLe_toLe 8 _ (e ▸ h)]

theorem unpackU64_toLe (a : Nat) (rest : List Nat) (h : a < 2 ^ 64) :
    unpackU64 (toLe 8 a ++ rest) = .ok (a, rest) := by
  have hl : (toLe 8 a).length = 8 := toLe_length 8 a
  have e : (256 : Nat) ^ 8 = 2 ^ 64 := by norm_num
  simp [unpackU64, hl, take_app _ _ 8 hl, drop_app _ _ 8 hl,
    fromLe_toLe 8 a (e ▸ h)]

theorem unpackU64_toLe_last (a : Nat) (h : a < 2 ^ 64) :
    unpackU64 (toLe 8 a) = .ok (a, []) := by
  have := unpackU64_toLe a [] h
  simpa using this

theorem swapInstruction_unpack_pack (r : SwapInstruction) (h : r.wf) :
    swapInstructionUnpack (swapInstructionPack r) = .ok r := by
  cases r with
  | initPool c =>
    simp [swapInstructionPack, swapInstructionUnpack, swapCurveUnpackUnchecked,
      swapCurveLen, swapCurvePack_length, swapCurve_roundtrip c h]
  | swapIx a m =>
    obtain ⟨ha, hm⟩ := h
    simp [swapInstructionPack, swapInstructionUnpack,
      unpackU64_toLe a _ ha, unpackU64_toLe_last m hm]
  | depositAllTokenTypes p a b =>
    obtain ⟨hp, ha, hb⟩ := h
    simp [swapInstructionPack, swapInstructionUnpack,
      unpackU64_toLe p _ hp, unpackU64_toLe a _ ha, unpackU64_toLe_last b hb]
  | withdrawAllTokenTypes p a b =>
    obtain ⟨hp, ha, hb⟩ := h
    simp [swapInstructionPack, swapInstructionUnpack,
      unpackU64_toLe p _ hp, unpackU64_toLe a _ ha, unpackU64_toLe_last b hb]
  | setGlobalState o fo s d f =>
    obtain ⟨ho, hfo, hs, hd, hf⟩ := h
    have hfees : (feesPack f).take feesLen = feesPack f :=
      List.take_of_length_le (by simp [feesPack_length, feesLen])
    simp [swapInstructionPack, swapInstructionUnpack, take_app, drop_app, ho, hfo,
      toLe_length, feesPack_length, feesLen, hfees,
      fees_roundtrip f hf, Nat.mod_eq_of_lt hd]
    rw [unpackU64_toLe s _ hs]
    simp [feesPack_length, fees_roundtrip f hf, List.take_of_length_le]

theorem swapInstruction_unpack_unknown_tag (tag : Nat) (rest : List Nat)
    (htag : 4 < tag) :
    swapInstructionUnpack (tag :: rest) = .error .invalidInstruction := by
  have h0 : ¬tag = 0 := by omega
  have h1 : ¬tag = 1 := by omega
  have h2 : ¬tag = 2 := by omega
  have h3 : ¬tag = 3 := by omega
  have h4 : ¬tag = 4 := by omega
  simp [swapInstructionUnpack, h0, h1, h2, h3, h4]

/-- Claim C4 (refuting evidence): `SwapInstruction::unpack` is not total on
valid-tag truncated payloads.  A buffer whose tag is 4 but whose payload
is shorter than 32 bytes reaches `rest.split_at(32)`, which panics in
Rust; and a tag-0 buffer whose payload length differs from the 33-byte
curve blob fails with `InvalidAccountData`, not the malformed-input
error `InvalidInstruction`. -/
theorem claim_c4_truncated_tag4_panics :
    swapInstructionUnpack [4] = .error .panicSliceOutOfRange ∧
    swapInstructionUnpack (4 :: List.replicate 40 0) = .error .panicSliceOutOfRange ∧
    swapInstructionUnpack [0] = .error .invalidAccountData := by
  decide

/-- Claim C5: decoding inverts encoding for every valid request value, and
decoding any buffer whose leading tag byte is outside `0..4` fails with
the malformed-input error (`InvalidInstruction`). -/
theorem claim_c5_roundtrip_and_unknown_tag :
    (∀ r : SwapInstruction, r.wf →
      swapInstructionUnpack (swapInstructionPack r) = .ok r) ∧
    (∀ (tag : Nat) (rest : List Nat), 4 < tag →
      swapInstructionUnpack (tag :: rest) = .error .invalidInstruction) :=
  ⟨swapInstruction_unpack_pack, swapInstruction_unpack_unknown_tag⟩

/-- Witness for C5 at concrete inputs: a concrete `Swap` request
round-trips, and tag byte 200 is rejected as malformed. -/
theorem claim_c5_witness :
    swapInstructionUnpack (swapInstructionPack (.swapIx 7 9)) = .ok (.swapIx 7 9) ∧
    swapInstructionUnpack [200, 1, 2] = .error .invalidInstruction :=
  ⟨claim_c5_roundtrip_and_unknown_tag.1 (.swapIx 7 9) (by decide),
   claim_c5_roundtrip_and_unknown_tag.2 200 [1, 2] (by decide)⟩

theorem globalState_roundtrip (g : GlobalState) (h : g.wf) :
    globalStateUnpackFromSlice (globalStatePack g) = .ok g := by
  obtain ⟨gi, go, gfo, gs, gd, gfe⟩ := g
  obtain ⟨ho, hfo, hs, hd, hf⟩ := h
  have e : (256 : Nat) ^ 8 = 2 ^ 64 := by norm_num
  cases gi <;>
    simp [globalStateUnpackFromSlice, globalStateLen, globalStatePack,
      take_app, drop_app, ho, hfo, toLe_length, feesPack_length,
      fromLe_toLe 8 gs (e ▸ hs), Nat.mod_eq_of_lt hd,
      fees_roundtrip gfe hf]

theorem swapV1_roundtrip (s : SwapV1) (h : s.wf) :
    swapV1UnpackFromSlice (swapV1Pack s) = .ok s := by
  obtain ⟨si, sn, stp, sta, stb, spm, sam, sbm, sc⟩ := s
  obtain ⟨hn, htp, hta, htb, hpm, ham, hbm, hc⟩ := h
  have hcurve : (swapCurvePack sc).take 33 = swapCurvePack sc :=
    List.take_of_length_le (by simp [swapCurvePack_length])
  cases si <;>
    simp [swapV1UnpackFromSlice, swapV1Len, swapV1Pack,
      take_app, drop_app, htp, hta, htb, hpm, ham, hbm,
      toLe_length, swapCurvePack_length, hcurve,
      swapCurve_roundtrip sc hc, Nat.mod_eq_of_lt hn]

/-- Claim C6: for every well-formed `GlobalState` record and every
well-formed `SwapV1` pool record, unpacking the packed byte form
returns the original record (all-zero fields, all-max scalar fields and
both boolean states are instances of the well-formedness bound). -/
theorem claim_c6_record_roundtrip :
    (∀ g : GlobalState, g.wf →
      globalStateUnpackFromSlice (globalStatePack g) = .ok g) ∧
    (∀ s : SwapV1, s.wf →
      swapV1UnpackFromSlice (swapV1Pack s) = .ok s) :=
  ⟨globalState_roundtrip, swapV1_roundtrip⟩

/-- Witness for C6 at boundary inputs: the all-zero `GlobalState` with
the flag clear, and an all-max/flag-set `SwapV1`, both round-trip. -/
theorem claim_c6_witness :
    globalStateUnpackFromSlice (globalStatePack
      ⟨false, List.replicate 32 0, List.replicate 32 0, 0, 0, ⟨0, 0⟩⟩) =
      .ok ⟨false, List.replicate 32 0, List.replicate 32 0, 0, 0, ⟨0, 0⟩⟩ ∧
    swapV1UnpackFromSlice (swapV1Pack
      ⟨true, 255, List.replicate 32 255, List.replicate 32 255,
        List.replicate 32 255, List.replicate 32 255, List.replicate 32 255,
        List.replicate 32 255, .constantPrice (2 ^ 64 - 1)⟩) =
      .ok ⟨true, 255, List.replicate 32 255, List.replicate 32 255,
        List.replicate 32 255, List.replicate 32 255, List.replicate 32 255,
        List.replicate 32 255, .constantPrice (2 ^ 64 - 1)⟩ :=
  ⟨claim_c6_record_roundtrip.1 _ (by decide),
   claim_c6_record_roundtrip.2 _ (by decide)⟩

theorem swapVersionUnpack_ok_inited (input : List Nat) (s : SwapV1)
    (h : swapVersionUnpack input = .ok s) : s.is_inited = true := by
  unfold swapVersionUnpack at h
  cases input with
  | nil => cases h
  | cons v rest =>
    by_cases hv : v = 1
    · simp only [hv, if_pos] at h
      unfold swapV1Unpack at h
      cases hu : swapV1UnpackUnchecked rest with
      | error e => rw [hu] at h; cases h
      | ok w =>
        rw [hu] at h
        by_cases hw : w.is_inited
        · simp [hw] at h; rw [← h]; exact hw
        · simp [hw] at h
    · simp [hv] at h

theorem swapVersionUnpack_ok_shape (input : List Nat) (s : SwapV1)
    (h : swapVersionUnpack input = .ok s) :
    input.length = 228 ∧ input.head? = some 1 := by
  unfold swapVersionUnpack at h
  cases input with
  | nil => cases h
  | cons v rest =>
    by_cases hv : v = 1
    · simp only [hv, if_pos] at h
      unfold swapV1Unpack swapV1UnpackUnchecked at h
      by_cases hl : rest.length = swapV1Len
      · simp [hv, List.length_cons, hl, swapV1Len]
      · simp [hl] at h
    · simp [hv] at h

/-- Claim C10: `SwapVersion::is_initialized` is total and never errors: it
returns `true` exactly when the buffer decodes successfully (which
forces a 228-byte buffer with version byte 1 and a well-formed,
flag-set `SwapV1` body), every decoding failure yields `false`, and
`Processor::process_initialize` rejects a pool slot with `AlreadyInUse`
exactly when this check returns `true`. -/
theorem claim_c10_is_inited_check (input : List Nat) :
    (swapVersionIsInited input = true ↔
      ∃ s, swapVersionUnpack input = .ok s ∧ s.is_inited = true) ∧
    ((∃ e, swapVersionUnpack input = .error e) →
      swapVersionIsInited input = false) ∧
    (swapVersionIsInited input = true →
      input.length = 228 ∧ input.head? = some 1) ∧
    (processInitGate input = .error .alreadyInUse ↔
      swapVersionIsInited input = true) := by
  cases hres : swapVersionUnpack input with
  | ok s =>
    have hi : s.is_inited = true := swapVersionUnpack_ok_inited input s hres
    have hshape := swapVersionUnpack_ok_shape input s hres
    simp [swapVersionIsInited, hres, hi, processInitGate, hshape]
  | error e =>
    simp [swapVersionIsInited, hres, processInitGate]

set_option maxRecDepth 8192 in
/-- Witness for C10 at concrete inputs: the empty buffer is not
initialized, and a version-1 buffer packing a flag-set `SwapV1` is. -/
theorem claim_c10_witness :
    swapVersionIsInited [] = false ∧
    swapVersionIsInited (1 :: swapV1Pack
      ⟨true, 3, List.replicate 32 0, List.replicate 32 1, List.replicate 32 2,
        List.replicate 32 3, List.replicate 32 4, List.replicate 32 5,
        .constantProduct⟩) = true :=
  ⟨(claim_c10_is_inited_check []).2.1 ⟨.invalidAccountData, by decide⟩,
   (claim_c10_is_inited_check _).1.mpr
     ⟨⟨true, 3, List.replicate 32 0, List.replicate 32 1, List.replicate 32 2,
        List.replicate 32 3, List.replicate 32 4, List.replicate 32 5,
        .constantProduct⟩, by decide, by decide⟩⟩

/-- Claim C7: validation of a `FeeParams` value against the policy floor
succeeds iff its numerator is at least the floor's numerator (0) and
its denominator equals the floor's denominator (10000); any other value
fails with the invalid-fee error. -/
theorem claim_c7_validate_fees (f : Fees) :
    (validate_fees SWAP_CONSTRAINTS f = .ok () ↔
      MINIMUM_FEES.trade_fee_numerator ≤ f.trade_fee_numerator ∧
        f.trade_fee_denominator = 10000) ∧
    (¬(MINIMUM_FEES.trade_fee_numerator ≤ f.trade_fee_numerator ∧
        f.trade_fee_denominator = 10000) →
      validate_fees SWAP_CONSTRAINTS f = .error .invalidFee) := by
  constructor
  · constructor
    · intro h
      by_cases hc : MINIMUM_FEES.trade_fee_numerator ≤ f.trade_fee_numerator ∧
          f.trade_fee_denominator = MINIMUM_FEES.trade_fee_denominator
      · exact ⟨hc.1, hc.2⟩
      · simp [validate_fees, SWAP_CONSTRAINTS, hc] at h
    · intro h
      simp [validate_fees, SWAP_CONSTRAINTS, MINIMUM_FEES] at h ⊢
      simp [h]
  · intro h
    have hc : ¬(MINIMUM_FEES.trade_fee_numerator ≤ f.trade_fee_numerator ∧
        f.trade_fee_denominator = MINIMUM_FEES.trade_fee_denominator) := h
    simp [validate_fees, SWAP_CONSTRAINTS, hc]

/-- Witness for C7: the floor itself passes; a wrong denominator is
rejected with the invalid-fee error. -/
theorem claim_c7_witness :
    validate_fees SWAP_CONSTRAINTS ⟨25, 10000⟩ = .ok () ∧
    validate_fees SWAP_CONSTRAINTS ⟨25, 9999⟩ = .error .invalidFee :=
  ⟨(claim_c7_validate_fees ⟨25, 10000⟩).1.mpr (by decide),
   (claim_c7_validate_fees ⟨25, 9999⟩).2 (by decide)⟩

/-- Helper: exact characterization of the `None` results of
`calculate_stable_lp_amount`. -/
theorem calc_stable_lp_none_iff (s a b ia ib : Nat) :
    calculate_stable_lp_amount s a b ia ib = none ↔
      2 ^ 128 ≤ a + b ∨ 2 ^ 128 ≤ ia + ib ∨ 2 ^ 128 ≤ (ia + ib) * s ∨
        a + b = 0 := by
  unfold calculate_stable_lp_amount checkedAdd128 checkedMul128 checkedDiv
  by_cases h1 : a + b < 2 ^ 128 <;> by_cases h2 : ia + ib < 2 ^ 128 <;>
    by_cases h3 : (ia + ib) * s < 2 ^ 128 <;> by_cases h4 : a + b = 0 <;>
    simp [h1, h2, h3, h4] <;> omega

theorem checkedAdd128_lt (a b : Nat) (h : a + b < 2 ^ 128) :
    checkedAdd128 a b = some (a + b) := by rw [checkedAdd128, if_pos h]

theorem checkedMul128_lt (a b : Nat) (h : a * b < 2 ^ 128) :
    checkedMul128 a b = some (a * b) := by rw [checkedMul128, if_pos h]

theorem checkedDiv_pos (a b : Nat) (h : ¬b = 0) :
    checkedDiv a b = some (a / b) := by rw [checkedDiv, if_neg h]

theorem checkedSub_le (a b : Nat) (h : b ≤ a) :
    checkedSub a b = some (a - b) := by rw [checkedSub, if_pos h]

theorem calc_stable_lp_some (s a b ia ib : Nat)
    (h : calculate_stable_lp_amount s a b ia ib ≠ none) :
    calculate_stable_lp_amount s a b ia ib = some ((ia + ib) * s / (a + b)) := by
  have hiff := calc_stable_lp_none_iff s a b ia ib
  by_cases h1 : a + b < 2 ^ 128
  · by_cases h2 : ia + ib < 2 ^ 128
    · by_cases h3 : (ia + ib) * s < 2 ^ 128
      · by_cases h4 : a + b = 0
        · exact absurd (hiff.mpr (Or.inr (Or.inr (Or.inr h4)))) h
        · simp only [calculate_stable_lp_amount, checkedAdd128_lt a b h1,
            checkedAdd128_lt ia ib h2, checkedMul128_lt _ _ h3,
            checkedDiv_pos _ _ h4, Bind.bind, Option.bind]
      · exact absurd (hiff.mpr (Or.inr (Or.inr (Or.inl (by omega))))) h
    · exact absurd (hiff.mpr (Or.inr (Or.inl (by omega)))) h
  · exact absurd (hiff.mpr (Or.inl (by omega))) h

theorem deposit_zero_iff (s a b ia ib : Nat) :
    processDepositCore s a b ia ib = .error .zeroTradingTokens ↔
      calculate_stable_lp_amount s a b ia ib = none := by
  unfold processDepositCore
  cases hc : calculate_stable_lp_amount s a b ia ib with
  | none => simp
  | some v =>
    by_cases h5 : v < 2 ^ 64
    · simp [show to_u64 v = .ok v from by rw [to_u64, if_pos h5]]
    · simp [show to_u64 v = .error .conversionFailure from by rw [to_u64, if_neg h5]]

/-- Claim C3: the LP amount for a proportional deposit is
`floor((input_a + input_b) * supply / (reserve_a + reserve_b))` in
checked 128-bit arithmetic; the computation yields `None` exactly when
an addition or multiplication overflows `u128` or the reserve sum is
zero, and the handler maps `None` (and only `None`) to the
zero-trading-tokens error. -/
theorem claim_c3_stable_lp_amount (s a b ia ib : Nat) :
    (calculate_stable_lp_amount s a b ia ib = none ↔
      2 ^ 128 ≤ a + b ∨ 2 ^ 128 ≤ ia + ib ∨ 2 ^ 128 ≤ (ia + ib) * s ∨
        a + b = 0) ∧
    (calculate_stable_lp_amount s a b ia ib ≠ none →
      calculate_stable_lp_amount s a b ia ib = some ((ia + ib) * s / (a + b))) ∧
    (processDepositCore s a b ia ib = .error .zeroTradingTokens ↔
      calculate_stable_lp_amount s a b ia ib = none) :=
  ⟨calc_stable_lp_none_iff s a b ia ib, calc_stable_lp_some s a b ia ib,
   deposit_zero_iff s a b ia ib⟩

/-- Witness for C3: a concrete balanced deposit yields the additive
proportional LP amount. -/
theorem claim_c3_witness :
    calculate_stable_lp_amount 10 5 5 3 7 = some ((3 + 7) * 10 / (5 + 5)) :=
  (claim_c3_stable_lp_amount 10 5 5 3 7).2.1 (by decide)

/-- Helper equations for `to_u64`. -/
theorem to_u64_lt (n : Nat) (h : n < 2 ^ 64) : to_u64 n = .ok n := by
  rw [to_u64, if_pos h]

theorem to_u64_ge (n : Nat) (h : ¬n < 2 ^ 64) :
    to_u64 n = .error .conversionFailure := by
  rw [to_u64, if_neg h]

/-- Claim C2 (refuting evidence): a clamped WithdrawProportional request
can fail even though the clamped amount yields non-zero per-side
amounts against non-zero reserves — the per-side slippage minimum still
applies.  Supply 200000 (≥ the 100000 floor), reserves 1000000 each,
requested burn 150000 is clamped to 100000 and yields 500000 per side,
yet the request fails with `ExceededSlippage` when the caller's
minimum for side A is 600000. -/
theorem claim_c2_counterexample :
    processWithdrawCore 150000 600000 0 200000 1000000 1000000 =
      .error .exceededSlippage ∧
    min 150000 (200000 - MIN_LP_SUPPLY) = 100000 ∧
    100000 * 1000000 / 200000 = 500000 ∧ (500000 : Nat) ≠ 0 := by
  decide

/-- Claim C2 (amended): on a pool whose LP supply is at least
`MIN_LP_SUPPLY`, a requested burn amount that would leave the supply
below the floor is clamped to `supply - MIN_LP_SUPPLY` rather than
rejected; the request then fails only when a clamped per-side amount is
below the caller's stated per-side minimum (slippage) or is zero
against a non-zero reserve; and a successful withdraw burns the clamped
amount, so the supply never drops below the floor. -/
theorem claim_c2_withdraw_clamped (req minA minB supply ra rb : Nat)
    (hsupply : supply < 2 ^ 64) (hra : ra < 2 ^ 64) (hrb : rb < 2 ^ 64)
    (hfloor : MIN_LP_SUPPLY ≤ supply) :
    (processWithdrawCore req minA minB supply ra rb =
      if min req (supply - MIN_LP_SUPPLY) * ra / supply < minA then
        .error .exceededSlippage
      else if min req (supply - MIN_LP_SUPPLY) * ra / supply = 0 ∧ ra ≠ 0 then
        .error .zeroTradingTokens
      else if min req (supply - MIN_LP_SUPPLY) * rb / supply < minB then
        .error .exceededSlippage
      else if min req (supply - MIN_LP_SUPPLY) * rb / supply = 0 ∧ rb ≠ 0 then
        .error .zeroTradingTokens
      else .ok (min req (supply - MIN_LP_SUPPLY),
        min req (supply - MIN_LP_SUPPLY) * ra / supply,
        min req (supply - MIN_LP_SUPPLY) * rb / supply)) ∧
    MIN_LP_SUPPLY ≤ supply - min req (supply - MIN_LP_SUPPLY) := by
  have hmin : MIN_LP_SUPPLY = 100000 := rfl
  have hsup0 : ¬supply = 0 := by omega
  have hpta_le : min req (supply - MIN_LP_SUPPLY) ≤ supply := by omega
  have hpta64 : min req (supply - MIN_LP_SUPPLY) < 2 ^ 64 := by omega
  have hmulA : min req (supply - MIN_LP_SUPPLY) * ra < 2 ^ 128 := by
    calc min req (supply - MIN_LP_SUPPLY) * ra < 2 ^ 64 * 2 ^ 64 :=
          Nat.mul_lt_mul_of_lt_of_lt hpta64 hra
      _ = 2 ^ 128 := by norm_num
  have hmulB : min req (supply - MIN_LP_SUPPLY) * rb < 2 ^ 128 := by
    calc min req (supply - MIN_LP_SUPPLY) * rb < 2 ^ 64 * 2 ^ 64 :=
          Nat.mul_lt_mul_of_lt_of_lt hpta64 hrb
      _ = 2 ^ 128 := by norm_num
  have hdivA_le : min req (supply - MIN_LP_SUPPLY) * ra / supply ≤ ra := by
    calc min req (supply - MIN_LP_SUPPLY) * ra / supply ≤ supply * ra / supply :=
          Nat.div_le_div_right (Nat.mul_le_mul_right ra hpta_le)
      _ = ra := Nat.mul_div_cancel_left ra (by omega)
  have hdivB_le : min req (supply - MIN_LP_SUPPLY) * rb / supply ≤ rb := by
    calc min req (supply - MIN_LP_SUPPLY) * rb / supply ≤ supply * rb / supply :=
          Nat.div_le_div_right (Nat.mul_le_mul_right rb hpta_le)
      _ = rb := Nat.mul_div_cancel_left rb (by omega)
  constructor
  · rw [processWithdrawCore, checkedSub_le supply MIN_LP_SUPPLY hfloor]
    simp only [poolTokensToTradingTokens, checkedMul128_lt _ _ hmulA,
      checkedMul128_lt _ _ hmulB, checkedDiv_pos _ _ hsup0,
      Bind.bind, Option.bind,
      to_u64_lt _ (lt_of_le_of_lt hdivA_le hra),
      to_u64_lt _ (lt_of_le_of_lt hdivB_le hrb),
      to_u64_lt _ hpta64,
      Nat.min_eq_right hdivA_le, Nat.min_eq_right hdivB_le]
  · omega

/-- Witness for the amended C2: supply 200000, reserves 1000000 each,
requested burn 150000 with zero minima is clamped to 100000 and
succeeds with 500000 per side, leaving the supply at the floor. -/
theorem claim_c2_witness :
    processWithdrawCore 150000 0 0 200000 1000000 1000000 =
      .ok (min 150000 (200000 - MIN_LP_SUPPLY),
        min 150000 (200000 - MIN_LP_SUPPLY) * 1000000 / 200000,
        min 150000 (200000 - MIN_LP_SUPPLY) * 1000000 / 200000) ∧
    MIN_LP_SUPPLY ≤ 200000 - min 150000 (200000 - MIN_LP_SUPPLY) := by
  have h := claim_c2_withdraw_clamped 150000 0 0 200000 1000000 1000000
    (by decide) (by decide) (by decide) (by decide)
  exact ⟨by rw [h.1]; decide, h.2⟩

/-- Claim C1 (refuting evidence): on the spec's own scenario — reserves
(1000000, 1000000), fee 0/10000, `amount_in = 1000` — the computed
output is 999, and the handler's transfer out of the caller's source
account into the pool's source reserve carries 999 (the computed
`dest_amount`), not the caller's stated `amount_in = 1000`. -/
theorem claim_c1_swap_transfers_wrong_amount :
    processSwapCore constantProductSwap ⟨1, 2, 3, 4, 5⟩ ⟨0, 10000⟩
      ⟨10, 1, 2, 11, 3, 5, 4⟩ 1000 0 1000000 1000000 =
      .ok [⟨10, 1, 999⟩, ⟨2, 11, 999⟩] ∧
    (999 : Nat) ≠ 1000 := by
  decide

/-- Claim C9: when the account-binding checks pass and the curve yields a
result, the swap fails with `ExceededSlippage` exactly when the
computed output is strictly below `minimum_amount_out`; with
`minimum_amount_out` equal to the computed output the swap proceeds and
issues its two transfers. -/
theorem claim_c9_slippage_guard (curveSwap : CurveSwapFn)
    (pb : PoolBindings) (fees : Fees) (k : SwapKeys)
    (amount_in minimum_amount_out source_amount dest_amount : Nat)
    (r : SwapResult)
    (hsrc : k.swapSource = pb.tokenA)
    (hdst : k.swapDestination = pb.tokenB)
    (hab : pb.tokenA ≠ pb.tokenB)
    (hks : k.swapSource ≠ k.source)
    (hkd : k.swapDestination ≠ k.destination)
    (hpm : k.poolMint = pb.poolMint)
    (hpf : k.poolFee = pb.feeOwner)
    (htp : k.tokenProgram = pb.tokenProgram)
    (hcurve : curveSwap amount_in source_amount dest_amount .atob fees = some r)
    (hmin64 : minimum_amount_out < 2 ^ 64) :
    (processSwapCore curveSwap pb fees k amount_in minimum_amount_out
        source_amount dest_amount = .error .exceededSlippage ↔
      r.dest_amount < minimum_amount_out) ∧
    (minimum_amount_out = r.dest_amount →
      processSwapCore curveSwap pb fees k amount_in minimum_amount_out
          source_amount dest_amount =
        .ok [⟨k.source, k.swapSource, r.dest_amount⟩,
             ⟨k.swapDestination, k.destination, r.dest_amount⟩]) := by
  have hne : k.swapSource ≠ k.swapDestination := by
    rw [hsrc, hdst]; exact hab
  have hcore : processSwapCore curveSwap pb fees k amount_in minimum_amount_out
      source_amount dest_amount =
      if r.dest_amount < minimum_amount_out then .error .exceededSlippage
      else match to_u64 r.dest_amount with
        | .error e => .error e
        | .ok amt => .ok [⟨k.source, k.swapSource, amt⟩,
            ⟨k.swapDestination, k.destination, amt⟩] := by
    rw [processSwapCore]
    rw [if_neg (by simp [hsrc]), if_neg (by simp [hdst]), if_neg hne, if_neg hks,
      if_neg hkd, if_neg (by simp [hpm]), if_neg (by simp [hpf]),
      if_neg (by simp [htp]), if_pos hsrc]
    simp only [hcurve]
  constructor
  · rw [hcore]
    by_cases hlt : r.dest_amount < minimum_amount_out
    · rw [if_pos hlt]; simp [hlt]
    · rw [if_neg hlt]
      constructor
      · intro hcontra
        exfalso
        by_cases hd : r.dest_amount < 2 ^ 64
        · rw [to_u64_lt _ hd] at hcontra; simp at hcontra
        · rw [to_u64_ge _ hd] at hcontra; simp at hcontra
      · intro hcontra; exact absurd hcontra hlt
  · intro heq
    have hd64 : r.dest_amount < 2 ^ 64 := heq ▸ hmin64
    have hnlt : ¬r.dest_amount < minimum_amount_out := by omega
    rw [hcore, if_neg hnlt, to_u64_lt _ hd64]

/-- Witness for C9: with the zero-fee constant-product curve on the
spec scenario, `minimum_amount_out = 1000` (one above the true output
999) fails with `ExceededSlippage`, and `minimum_amount_out = 999`
succeeds. -/
theorem claim_c9_witness :
    (processSwapCore constantProductSwap ⟨1, 2, 3, 4, 5⟩ ⟨0, 10000⟩
        ⟨10, 1, 2, 11, 3, 5, 4⟩ 1000 1000 1000000 1000000 =
      .error .exceededSlippage) ∧
    (processSwapCore constantProductSwap ⟨1, 2, 3, 4, 5⟩ ⟨0, 10000⟩
        ⟨10, 1, 2, 11, 3, 5, 4⟩ 1000 999 1000000 1000000 =
      .ok [⟨10, 1, 999⟩, ⟨2, 11, 999⟩]) :=
  ⟨(claim_c9_slippage_guard constantProductSwap ⟨1, 2, 3, 4, 5⟩ ⟨0, 10000⟩
      ⟨10, 1, 2, 11, 3, 5, 4⟩ 1000 1000 1000000 1000000 ⟨999, 1001000⟩
      rfl rfl (by decide) (by decide) (by decide) rfl rfl rfl (by decide)
      (by decide)).1.mpr (by decide),
   (claim_c9_slippage_guard constantProductSwap ⟨1, 2, 3, 4, 5⟩ ⟨0, 10000⟩
      ⟨10, 1, 2, 11, 3, 5, 4⟩ 1000 999 1000000 1000000 ⟨999, 1001000⟩
      rfl rfl (by decide) (by decide) (by decide) rfl rfl rfl (by decide)
      (by decide)).2 rfl⟩

/-- Claim C8: once the global configuration record is initialized, a
Configure request signed by a key different from the stored owner fails
with the authorization error (`InvalidProgramOwner`) and leaves the
record unchanged; signed by the stored owner, with fees and curve
passing validation, it overwrites the record with the new owner, fee
collector, initial supply and fees. -/
theorem claim_c8_set_global_state (defaults stored : GlobalStateSP)
    (currentOwnerKey owner fee_owner initial_supply : Nat) (fees : Fees)
    (swap_curve : SwapCurve)
    (hinit : stored.is_inited = true) :
    (currentOwnerKey ≠ stored.owner →
      processSetGlobalStateCore defaults stored true currentOwnerKey owner
          fee_owner initial_supply fees swap_curve =
        .error .invalidProgramOwner ∧
      runSetGlobalState defaults stored true currentOwnerKey owner
          fee_owner initial_supply fees swap_curve = stored) ∧
    (currentOwnerKey = stored.owner →
      fees.trade_fee_denominator = 10000 →
      calcValidate swap_curve = .ok () →
      processSetGlobalStateCore defaults stored true currentOwnerKey owner
          fee_owner initial_supply fees swap_curve =
        .ok ⟨true, owner, fee_owner, initial_supply, fees, swap_curve⟩ ∧
      runSetGlobalState defaults stored true currentOwnerKey owner
          fee_owner initial_supply fees swap_curve =
        ⟨true, owner, fee_owner, initial_supply, fees, swap_curve⟩) := by
  have hgs : (if stored.is_inited = false then
      ({ is_inited := true, owner := defaults.owner,
         fee_owner := defaults.fee_owner,
         initial_supply := defaults.initial_supply,
         fees := defaults.fees, swap_curve := defaults.swap_curve } :
        GlobalStateSP)
    else stored) = stored := by
    rw [hinit]; simp
  constructor
  · intro hne
    have hcore : processSetGlobalStateCore defaults stored true currentOwnerKey
        owner fee_owner initial_supply fees swap_curve =
        .error .invalidProgramOwner := by
      rw [processSetGlobalStateCore]
      simp only [hgs]
      rw [if_neg (by simp), if_pos (fun h => hne h.symm)]
    exact ⟨hcore, by rw [runSetGlobalState, hcore]⟩
  · intro heq hden hcalc
    have hcurveOk : validate_curve SWAP_CONSTRAINTS swap_curve = .ok () := by
      cases swap_curve <;> rfl
    have hfeesOk : validate_fees SWAP_CONSTRAINTS fees = .ok () := by
      rw [validate_fees, if_pos]
      exact ⟨Nat.zero_le _, hden⟩
    have hfvOk : feesValidate fees = .ok () := by
      rw [feesValidate, if_neg (by omega)]
    have hcore : processSetGlobalStateCore defaults stored true currentOwnerKey
        owner fee_owner initial_supply fees swap_curve =
        .ok ⟨true, owner, fee_owner, initial_supply, fees, swap_curve⟩ := by
      rw [processSetGlobalStateCore]
      simp only [hgs]
      rw [if_neg (by simp), if_neg (by simp [heq])]
      simp only [hcurveOk, hfeesOk, hfvOk, hcalc]
    exact ⟨hcore, by rw [runSetGlobalState, hcore]⟩

/-- Witness for C8: a concrete initialized record — a foreign signer is
rejected and the record survives; the stored owner's request rewrites
the record. -/
theorem claim_c8_witness :
    (processSetGlobalStateCore ⟨true, 1, 2, 3, ⟨1, 2⟩, .constantProduct⟩
        ⟨true, 7, 8, 9, ⟨5, 10000⟩, .constantProduct⟩ true 6 20 21 22
        ⟨25, 10000⟩ .constantProduct = .error .invalidProgramOwner ∧
      runSetGlobalState ⟨true, 1, 2, 3, ⟨1, 2⟩, .constantProduct⟩
        ⟨true, 7, 8, 9, ⟨5, 10000⟩, .constantProduct⟩ true 6 20 21 22
        ⟨25, 10000⟩ .constantProduct =
        ⟨true, 7, 8, 9, ⟨5, 10000⟩, .constantProduct⟩) ∧
    (processSetGlobalStateCore ⟨true, 1, 2, 3, ⟨1, 2⟩, .constantProduct⟩
        ⟨true, 7, 8, 9, ⟨5, 10000⟩, .constantProduct⟩ true 7 20 21 22
        ⟨25, 10000⟩ .constantProduct =
        .ok ⟨true, 20, 21, 22, ⟨25, 10000⟩, .constantProduct⟩) :=
  ⟨(claim_c8_set_global_state ⟨true, 1, 2, 3, ⟨1, 2⟩, .constantProduct⟩
      ⟨true, 7, 8, 9, ⟨5, 10000⟩, .constantProduct⟩ 6 20 21 22
      ⟨25, 10000⟩ .constantProduct rfl).1 (by decide),
   ((claim_c8_set_global_state ⟨true, 1, 2, 3, ⟨1, 2⟩, .constantProduct⟩
      ⟨true, 7, 8, 9, ⟨5, 10000⟩, .constantProduct⟩ 7 20 21 22
      ⟨25, 10000⟩ .constantProduct rfl).2 rfl rfl rfl).1⟩

end Atlas
